import Mathlib

/-!
Verification of the stock-screening / stock-analysis browser application
(`src/index.tsx`) against its natural-language specification.

The TypeScript source is shallowly embedded:
* JS `number` scores are modelled as `Rat` (the code only compares and
  subtracts scores, which `Rat` models exactly);
* `localStorage` is modelled as an association list of string keys to
  string values (`LocalStorage`), with `getItem` returning the first
  binding and `setItem` prepending, matching last-write-wins reads;
* the two async handlers `handleScreen` / `handleAnalyze` are modelled as
  pure state-transition functions.  The remote generation call and the
  host `JSON.parse` primitive are external to the repository, so they
  enter as parameters: a `RemoteOutcome` (the call threw, or returned a
  response text) and a parse function `String → Option _` (`none` models
  a `JSON.parse` exception);
* JS string falsiness (`!apiKey`, `!criteria.trim()`) is modelled by
  `jsFalsy` on `Option String` (null or empty string) and by `isBlank`
  (`s.trim()` is empty exactly when every character of `s` is
  whitespace);
* `Array.prototype.sort` with the comparator `(a, b) => b.score - a.score`
  is modelled by `List.mergeSort` with `scoreLe`: ECMAScript requires
  `sort` to be stable, and the comparator orders by descending score.
-/

/- ### Data model (src/index.tsx, interfaces `RecommendedStock`,
`StockAnalysis`, `FinancialPeriod`) -/

structure KeyMetrics where
  grossMargin : String
  peRatio : String
deriving DecidableEq

structure RecommendedStock where
  name : String
  ticker : String
  exchange : String
  score : Rat
  thesis : String
  keyMetrics : KeyMetrics
deriving DecidableEq

structure ValueComment where
  value : String
  comment : String
deriving DecidableEq

structure FinancialPeriod where
  period : String
  revenue : ValueComment
  netProfit : ValueComment
  grossMargin : ValueComment
  peRatio : ValueComment
deriving DecidableEq

structure CompanyProfile where
  name : String
  ticker : String
  exchange : String
  industry : String
  description : String
deriving DecidableEq

structure SwotAnalysis where
  strengths : List String
  weaknesses : List String
  opportunities : List String
  threats : List String
deriving DecidableEq

structure InvestmentThesis where
  bull : String
  bear : String
deriving DecidableEq

structure RiskAnalysis where
  rating : String
  summary : String
  keyFactors : List String
deriving DecidableEq

structure StockAnalysis where
  companyProfile : CompanyProfile
  financialSummary : List FinancialPeriod
  swotAnalysis : SwotAnalysis
  investmentThesis : InvestmentThesis
  riskAnalysis : RiskAnalysis
  conclusion : String
deriving DecidableEq

/- ### Renderer tier functions -/

/-- Function `getScoreClass` (src/index.tsx lines 46-50). -/
def getScoreClass (score : Rat) : String :=
  if score ≥ 85 then "high"
  else if score ≥ 60 then "medium"
  else "low"

/-- Function `getRiskClass` (src/index.tsx lines 351-356). -/
def getRiskClass (rating : String) : String :=
  if rating = "高风险" then "risk-high"
  else if rating = "中等风险" then "risk-medium"
  else if rating = "低风险" then "risk-low"
  else ""

/- ### Claim C1 -/

/-- C1: for every number `s`, the screening score-to-tier function returns
"high" iff `s ≥ 85`, "medium" iff `60 ≤ s < 85`, and "low" iff `s < 60`. -/
theorem getScoreClass_tier_iff (s : Rat) :
    (getScoreClass s = "high" ↔ 85 ≤ s) ∧
    (getScoreClass s = "medium" ↔ 60 ≤ s ∧ s < 85) ∧
    (getScoreClass s = "low" ↔ s < 60) := by
  have hhm : ("high" : String) ≠ "medium" := by decide
  have hhl : ("high" : String) ≠ "low" := by decide
  have hmh : ("medium" : String) ≠ "high" := by decide
  have hml : ("medium" : String) ≠ "low" := by decide
  have hlh : ("low" : String) ≠ "high" := by decide
  have hlm : ("low" : String) ≠ "medium" := by decide
  unfold getScoreClass
  split_ifs with h1 h2
  · refine ⟨by simp [h1], ?_, ?_⟩
    · simp only [hhm, false_iff]
      intro h
      linarith [h.2]
    · simp only [hhl, false_iff]
      intro h
      linarith
  · push_neg at h1
    refine ⟨?_, by simp [h2, h1], ?_⟩
    · simp only [hmh, false_iff]
      intro h
      linarith
    · simp only [hml, false_iff]
      intro h
      linarith
  · push_neg at h1 h2
    refine ⟨?_, ?_, by simp [h2]⟩
    · simp only [hlh, false_iff]
      intro h
      linarith
    · simp only [hlm, false_iff]
      intro h
      linarith [h.1]

/- ### Credential store (src/index.tsx lines 6, 499-503)

`localStorage` is the browser's persistent string-to-string map; it is
modelled as an association list where `setItem` prepends and `getItem`
reads the first binding for the key. -/

def LocalStorage := List (String × String)

def getItem (s : LocalStorage) (k : String) : Option String :=
  match s.find? (fun p => decide (p.1 = k)) with
  | some p => some p.2
  | none => none

def setItem (s : LocalStorage) (k v : String) : LocalStorage :=
  (k, v) :: s

/-- Function `getApiKey` (src/index.tsx line 6). -/
def getApiKey (s : LocalStorage) : Option String :=
  getItem s "gemini_api_key"

/-- Function `handleSave` of the settings page (src/index.tsx lines 499-503),
restricted to its storage effect. -/
def handleSave (s : LocalStorage) (apiKey : String) : LocalStorage :=
  setItem s "gemini_api_key" apiKey

/- ### User-visible messages (string literals of src/index.tsx) -/

def missingKeyMsg : String := "请先在“设置”页面中配置您的 Gemini API Key。"

def emptyCriteriaMsg : String := "请输入您的选股标准。"

def screenFailMsg : String := "筛选失败。请检查您的API Key是否有效，调整您的标准或稍后重试。"

def emptyTickerMsg : String := "请输入股票代码。"

def analyzeFailMsg : String := "分析失败。请检查您的API Key是否有效、股票代码是否正确，或稍后重试。"

/- ### The two request handlers -/

/-- JS falsiness of the value returned by `localStorage.getItem`:
`null` and the empty string are falsy (`if (!apiKey)`). -/
def jsFalsy : Option String → Bool
  | none => true
  | some k => k.isEmpty

/-- The guard `!s.trim()`: the trimmed string is empty exactly when every
character of `s` is whitespace (in particular when `s` is empty). -/
def isBlank (s : String) : Bool :=
  s.data.all Char.isWhitespace

/-- Outcome of the single remote generation call: the call threw
(network error, rejected credential, ...) or resolved with a response
text. -/
inductive RemoteOutcome where
  | thrown
  | success (text : String)

/-- Comparator semantics of `(a, b) => b.score - a.score`
(src/index.tsx line 135): `a` need not come after `b` exactly when
`b.score - a.score ≤ 0`. -/
def scoreLe (a b : RecommendedStock) : Bool :=
  decide (b.score ≤ a.score)

/-- Model of `resultData.sort((a, b) => b.score - a.score)` (src/index.tsx
line 135): ECMAScript `Array.prototype.sort` is a stable sort with
respect to the comparator. -/
def sortByScoreDesc (l : List RecommendedStock) : List RecommendedStock :=
  l.mergeSort scoreLe

/-- Transient UI state of the `StockScreener` component. -/
structure ScreenerState where
  criteria : String
  loading : Bool
  error : String
  screenerResults : Option (List RecommendedStock)
deriving DecidableEq

/-- Transient UI state of the `StockAnalyzer` component. -/
structure AnalyzerState where
  ticker : String
  loading : Bool
  error : String
  analysis : Option StockAnalysis
deriving DecidableEq

/-- Phase of a handler run up to the point where the remote call would
start: either the submission was rejected by a guard (no call is
issued), or the call begins from the recorded pre-call state. -/
inductive BeginStep (σ : Type) where
  | rejected (st : σ)
  | calling (st : σ)
deriving DecidableEq

/-- Guards and pre-call state updates of `handleScreen`
(src/index.tsx lines 92-103). -/
def screenBegin (store : Option String) (st : ScreenerState) :
    BeginStep ScreenerState :=
  if jsFalsy store then
    .rejected { st with error := missingKeyMsg }
  else if isBlank st.criteria then
    .rejected { st with error := emptyCriteriaMsg }
  else
    .calling { st with loading := true, error := "", screenerResults := none }

/-- Body try/catch/finally of `handleScreen` around the remote call
(src/index.tsx lines 105-144).  `parse` stands for the host `JSON.parse`
applied to `response.text.trim()`; `none` models a parse exception. -/
def screenFinish (st : ScreenerState) (remote : RemoteOutcome)
    (parse : String → Option (List RecommendedStock)) : ScreenerState :=
  match remote with
  | .thrown => { st with error := screenFailMsg, loading := false }
  | .success text =>
    match parse text.trim with
    | none => { st with error := screenFailMsg, loading := false }
    | some data =>
      { st with screenerResults := some (sortByScoreDesc data), loading := false }

/-- Function `handleScreen` (src/index.tsx lines 91-145). -/
def handleScreen (store : Option String) (st : ScreenerState)
    (remote : RemoteOutcome)
    (parse : String → Option (List RecommendedStock)) : ScreenerState :=
  match screenBegin store st with
  | .rejected st' => st'
  | .calling pre => screenFinish pre remote parse

/-- Whether `handleScreen` issues the remote generation call. -/
def screenIssuesCall (store : Option String) (st : ScreenerState) : Bool :=
  match screenBegin store st with
  | .rejected _ => false
  | .calling _ => true

/-- Guards and pre-call state updates of `handleAnalyze`
(src/index.tsx lines 298-309). -/
def analyzeBegin (store : Option String) (st : AnalyzerState) :
    BeginStep AnalyzerState :=
  if jsFalsy store then
    .rejected { st with error := missingKeyMsg }
  else if isBlank st.ticker then
    .rejected { st with error := emptyTickerMsg }
  else
    .calling { st with loading := true, error := "", analysis := none }

/-- Body try/catch/finally of `handleAnalyze` around the remote call
(src/index.tsx lines 311-348). -/
def analyzeFinish (st : AnalyzerState) (remote : RemoteOutcome)
    (parse : String → Option StockAnalysis) : AnalyzerState :=
  match remote with
  | .thrown => { st with error := analyzeFailMsg, loading := false }
  | .success text =>
    match parse text.trim with
    | none => { st with error := analyzeFailMsg, loading := false }
    | some data => { st with analysis := some data, loading := false }

/-- Function `handleAnalyze` (src/index.tsx lines 297-349). -/
def handleAnalyze (store : Option String) (st : AnalyzerState)
    (remote : RemoteOutcome)
    (parse : String → Option StockAnalysis) : AnalyzerState :=
  match analyzeBegin store st with
  | .rejected st' => st'
  | .calling pre => analyzeFinish pre remote parse

/-- Whether `handleAnalyze` issues the remote generation call. -/
def analyzeIssuesCall (store : Option String) (st : AnalyzerState) : Bool :=
  match analyzeBegin store st with
  | .rejected _ => false
  | .calling _ => true

/- ### Claim C6 -/

/-- C6: saving a credential `v` via the settings operation and then
reading the credential back returns exactly `v`. -/
theorem getApiKey_handleSave_roundtrip (s : LocalStorage) (v : String) :
    getApiKey (handleSave s v) = some v := by
  simp [getApiKey, handleSave, setItem, getItem, List.find?]

/- ### Claim C4 -/

/-- C4: with no stored credential, neither handler issues a remote call,
and both surface the missing-credential error message. -/
theorem noCredential_missingCredential (sst : ScreenerState)
    (ast : AnalyzerState) (remote : RemoteOutcome)
    (ps : String → Option (List RecommendedStock))
    (pa : String → Option StockAnalysis) :
    screenIssuesCall none sst = false ∧
    handleScreen none sst remote ps = { sst with error := missingKeyMsg } ∧
    analyzeIssuesCall none ast = false ∧
    handleAnalyze none ast remote pa = { ast with error := missingKeyMsg } :=
  ⟨rfl, rfl, rfl, rfl⟩

/- ### Claim C9 -/

/-- C9: an empty-string credential in the slot is treated exactly as the
no-credential case: same resulting state, no remote call, and the
missing-credential error message. -/
theorem emptyCredential_missingCredential (sst : ScreenerState)
    (ast : AnalyzerState) (remote : RemoteOutcome)
    (ps : String → Option (List RecommendedStock))
    (pa : String → Option StockAnalysis) :
    handleScreen (some "") sst remote ps = handleScreen none sst remote ps ∧
    screenIssuesCall (some "") sst = false ∧
    (handleScreen (some "") sst remote ps).error = missingKeyMsg ∧
    handleAnalyze (some "") ast remote pa = handleAnalyze none ast remote pa ∧
    analyzeIssuesCall (some "") ast = false ∧
    (handleAnalyze (some "") ast remote pa).error = missingKeyMsg :=
  ⟨rfl, rfl, rfl, rfl, rfl, rfl⟩

/- ### Claim C3 -/

/-- C3, counterexample: a whitespace-only submission with no stored
credential is rejected with the missing-credential message, not the
empty-input message, for both handlers — the credential guard runs
first, so the claimed "regardless of whether a credential is stored"
fails. -/
theorem blankInput_notAlways_emptyInput :
    isBlank " " = true ∧
    (handleScreen none (ScreenerState.mk " " false "" none) .thrown
        (fun _ => none)).error = missingKeyMsg ∧
    missingKeyMsg ≠ emptyCriteriaMsg ∧
    (handleAnalyze none (AnalyzerState.mk " " false "" none) .thrown
        (fun _ => none)).error = missingKeyMsg ∧
    missingKeyMsg ≠ emptyTickerMsg :=
  ⟨rfl, rfl, by decide, rfl, by decide⟩

/-- C3, amended: with a (truthy) stored credential, a blank or
whitespace-only submission issues no remote call and yields the
empty-input error; without a credential the missing-credential guard
fires first (see the counterexample), still with no remote call. -/
theorem blankInput_emptyInput (store : Option String) (sst : ScreenerState)
    (ast : AnalyzerState) (remote : RemoteOutcome)
    (ps : String → Option (List RecommendedStock))
    (pa : String → Option StockAnalysis)
    (hk : jsFalsy store = false)
    (hcs : isBlank sst.criteria = true)
    (hta : isBlank ast.ticker = true) :
    screenIssuesCall store sst = false ∧
    handleScreen store sst remote ps = { sst with error := emptyCriteriaMsg } ∧
    analyzeIssuesCall store ast = false ∧
    handleAnalyze store ast remote pa = { ast with error := emptyTickerMsg } := by
  refine ⟨?_, ?_, ?_, ?_⟩ <;>
    simp [screenIssuesCall, analyzeIssuesCall, handleScreen, handleAnalyze,
      screenBegin, analyzeBegin, hk, hcs, hta]

/-- C3, witness for the amended theorem at a concrete store, a
whitespace-only criteria string and an empty ticker string. -/
theorem blankInput_emptyInput_witness :
    jsFalsy (some "k") = false ∧
    isBlank "  " = true ∧
    isBlank "" = true ∧
    screenIssuesCall (some "k") (ScreenerState.mk "  " false "" none) = false ∧
    handleScreen (some "k") (ScreenerState.mk "  " false "" none) .thrown
        (fun _ => none) = ScreenerState.mk "  " false emptyCriteriaMsg none ∧
    analyzeIssuesCall (some "k") (AnalyzerState.mk "" false "" none) = false ∧
    handleAnalyze (some "k") (AnalyzerState.mk "" false "" none) .thrown
        (fun _ => none) = AnalyzerState.mk "" false emptyTickerMsg none :=
  ⟨by decide, by decide, by decide,
    (blankInput_emptyInput (some "k") (ScreenerState.mk "  " false "" none)
      (AnalyzerState.mk "" false "" none) .thrown (fun _ => none)
      (fun _ => none) (by decide) (by decide) (by decide)).1,
    (blankInput_emptyInput (some "k") (ScreenerState.mk "  " false "" none)
      (AnalyzerState.mk "" false "" none) .thrown (fun _ => none)
      (fun _ => none) (by decide) (by decide) (by decide)).2.1,
    (blankInput_emptyInput (some "k") (ScreenerState.mk "  " false "" none)
      (AnalyzerState.mk "" false "" none) .thrown (fun _ => none)
      (fun _ => none) (by decide) (by decide) (by decide)).2.2.1,
    (blankInput_emptyInput (some "k") (ScreenerState.mk "  " false "" none)
      (AnalyzerState.mk "" false "" none) .thrown (fun _ => none)
      (fun _ => none) (by decide) (by decide) (by decide)).2.2.2⟩

/- ### Claim C8 -/

/-- C8: when both guards pass, the pre-call state recorded at the moment
the remote call begins has the error message and the result display
cleared (and the loading flag set); and any guard-rejected submission
leaves the previously rendered result untouched. -/
theorem preCall_clears_rejection_preserves (store : Option String)
    (sst : ScreenerState) (ast : AnalyzerState)
    (hk : jsFalsy store = false)
    (hcs : isBlank sst.criteria = false)
    (hta : isBlank ast.ticker = false) :
    screenBegin store sst
        = .calling { sst with loading := true, error := "",
                              screenerResults := none } ∧
    analyzeBegin store ast
        = .calling { ast with loading := true, error := "", analysis := none } ∧
    (∀ (store2 : Option String) (sst2 st' : ScreenerState),
        screenBegin store2 sst2 = .rejected st' →
        st'.screenerResults = sst2.screenerResults) ∧
    (∀ (store2 : Option String) (ast2 st' : AnalyzerState),
        analyzeBegin store2 ast2 = .rejected st' →
        st'.analysis = ast2.analysis) := by
  refine ⟨by simp [screenBegin, hk, hcs], by simp [analyzeBegin, hk, hta],
    ?_, ?_⟩
  · intro store2 sst2 st' h
    unfold screenBegin at h
    split_ifs at h <;> cases h <;> rfl
  · intro store2 ast2 st' h
    unfold analyzeBegin at h
    split_ifs at h <;> cases h <;> rfl

/-- C8, witness: concrete credential, criteria and ticker passing the
guards, with a stale error and a stale rendered result that get cleared
in the pre-call state; plus a concrete rejected submission (no
credential) that leaves the rendered result untouched. -/
theorem preCall_clears_rejection_preserves_witness :
    jsFalsy (some "k") = false ∧
    isBlank "growth stocks" = false ∧
    isBlank "AAPL" = false ∧
    screenBegin (some "k")
        (ScreenerState.mk "growth stocks" false "old error" (some []))
        = .calling (ScreenerState.mk "growth stocks" true "" none) ∧
    analyzeBegin (some "k") (AnalyzerState.mk "AAPL" false "old error" none)
        = .calling (AnalyzerState.mk "AAPL" true "" none) ∧
    (ScreenerState.mk "x" false missingKeyMsg (some [])).screenerResults
        = (ScreenerState.mk "x" false "" (some [])).screenerResults :=
  ⟨by decide, by decide, by decide,
    (preCall_clears_rejection_preserves (some "k")
      (ScreenerState.mk "growth stocks" false "old error" (some []))
      (AnalyzerState.mk "AAPL" false "old error" none)
      (by decide) (by decide) (by decide)).1,
    (preCall_clears_rejection_preserves (some "k")
      (ScreenerState.mk "growth stocks" false "old error" (some []))
      (AnalyzerState.mk "AAPL" false "old error" none)
      (by decide) (by decide) (by decide)).2.1,
    (preCall_clears_rejection_preserves (some "k")
      (ScreenerState.mk "growth stocks" false "old error" (some []))
      (AnalyzerState.mk "AAPL" false "old error" none)
      (by decide) (by decide) (by decide)).2.2.1 none
      (ScreenerState.mk "x" false "" (some []))
      (ScreenerState.mk "x" false missingKeyMsg (some [])) rfl⟩

/- ### Claim C5 -/

/-- C5: when the guards pass, the remote call resolves, and the response
text fails JSON parsing, the submission ends with the generation-failure
error message, an empty result display, and the loading flag cleared, for
both handlers. -/
theorem parseFailure_generationFailure (store : Option String)
    (sst : ScreenerState) (ast : AnalyzerState) (stext atext : String)
    (ps : String → Option (List RecommendedStock))
    (pa : String → Option StockAnalysis)
    (hk : jsFalsy store = false)
    (hcs : isBlank sst.criteria = false)
    (hta : isBlank ast.ticker = false)
    (hps : ps stext.trim = none)
    (hpa : pa atext.trim = none) :
    handleScreen store sst (.success stext) ps
        = { sst with loading := false, error := screenFailMsg,
                     screenerResults := none } ∧
    handleAnalyze store ast (.success atext) pa
        = { ast with loading := false, error := analyzeFailMsg,
                     analysis := none } := by
  constructor <;>
    simp [handleScreen, handleAnalyze, screenBegin, analyzeBegin,
      screenFinish, analyzeFinish, hk, hcs, hta, hps, hpa]

/-- C5, witness: a concrete submission whose response text is rejected by
the parse function. -/
theorem parseFailure_generationFailure_witness :
    jsFalsy (some "k") = false ∧
    isBlank "value stocks" = false ∧
    isBlank "NVDA" = false ∧
    handleScreen (some "k") (ScreenerState.mk "value stocks" false "" (some []))
        (.success "not json") (fun _ => none)
        = ScreenerState.mk "value stocks" false screenFailMsg none ∧
    handleAnalyze (some "k") (AnalyzerState.mk "NVDA" false "" none)
        (.success "not json") (fun _ => none)
        = AnalyzerState.mk "NVDA" false analyzeFailMsg none :=
  ⟨by decide, by decide, by decide,
    (parseFailure_generationFailure (some "k")
      (ScreenerState.mk "value stocks" false "" (some []))
      (AnalyzerState.mk "NVDA" false "" none) "not json" "not json"
      (fun _ => none) (fun _ => none)
      (by decide) (by decide) (by decide) rfl rfl).1,
    (parseFailure_generationFailure (some "k")
      (ScreenerState.mk "value stocks" false "" (some []))
      (AnalyzerState.mk "NVDA" false "" none) "not json" "not json"
      (fun _ => none) (fun _ => none)
      (by decide) (by decide) (by decide) rfl rfl).2⟩

/- ### Claim C2 -/

theorem scoreLe_trans (a b c : RecommendedStock) :
    scoreLe a b → scoreLe b c → scoreLe a c := by
  simp only [scoreLe, decide_eq_true_eq]
  exact fun h1 h2 => le_trans h2 h1

theorem scoreLe_total (a b : RecommendedStock) : scoreLe a b || scoreLe b a := by
  simp only [scoreLe, Bool.or_eq_true, decide_eq_true_eq]
  exact le_total b.score a.score

theorem sortByScoreDesc_sorted (l : List RecommendedStock) :
    (sortByScoreDesc l).Pairwise (fun a b => b.score ≤ a.score) :=
  (List.sorted_mergeSort scoreLe_trans scoreLe_total l).imp
    (fun h => by simpa [scoreLe] using h)

theorem sortByScoreDesc_stable (l : List RecommendedStock) (c : Rat) :
    (sortByScoreDesc l).filter (fun x => decide (x.score = c))
      = l.filter (fun x => decide (x.score = c)) := by
  have hall : ∀ x ∈ l.filter (fun x => decide (x.score = c)), x.score = c := by
    intro x hx
    simpa using (List.mem_filter.mp hx).2
  have hsub : List.Sublist (l.filter (fun x => decide (x.score = c)))
      (sortByScoreDesc l) := by
    apply List.sublist_mergeSort scoreLe_trans scoreLe_total
    · exact List.pairwise_of_forall_mem_list (fun a ha b hb => by
        simp [scoreLe, hall a ha, hall b hb])
    · exact List.filter_sublist l
  have hfil : List.Sublist (l.filter (fun x => decide (x.score = c)))
      ((sortByScoreDesc l).filter (fun x => decide (x.score = c))) := by
    have h2 := hsub.filter (fun x => decide (x.score = c))
    rwa [List.filter_eq_self.mpr (fun a ha => by simpa using hall a ha)] at h2
  have hperm : List.Perm
      ((sortByScoreDesc l).filter (fun x => decide (x.score = c)))
      (l.filter (fun x => decide (x.score = c))) :=
    (List.mergeSort_perm l scoreLe).filter (fun x => decide (x.score = c))
  exact (hfil.eq_of_length hperm.length_eq.symm).symm

/-- C2: a successful screening submission renders exactly the stable
descending-by-score sort of the parsed result list: the rendered
collection is pairwise non-increasing in score, and for every score
value the sublist of elements carrying that score is unchanged from the
parsed input order (stability). -/
theorem handleScreen_results_sorted_stable (store : Option String)
    (st : ScreenerState) (text : String)
    (parse : String → Option (List RecommendedStock))
    (data : List RecommendedStock)
    (hk : jsFalsy store = false)
    (hc : isBlank st.criteria = false)
    (hp : parse text.trim = some data) :
    (handleScreen store st (.success text) parse).screenerResults
        = some (sortByScoreDesc data) ∧
    (sortByScoreDesc data).Pairwise (fun a b => b.score ≤ a.score) ∧
    ∀ c : Rat, (sortByScoreDesc data).filter (fun x => decide (x.score = c))
        = data.filter (fun x => decide (x.score = c)) := by
  refine ⟨?_, sortByScoreDesc_sorted data, fun c => sortByScoreDesc_stable data c⟩
  simp [handleScreen, screenBegin, screenFinish, hk, hc, hp]

def stockA : RecommendedStock :=
  ⟨"Alpha", "AAA", "NASDAQ", 92, "strong moat", ⟨"55.2%", "32"⟩⟩

def stockB : RecommendedStock :=
  ⟨"Beta", "BBB", "NYSE", 58, "turnaround", ⟨"41.0%", "18"⟩⟩

def stockC : RecommendedStock :=
  ⟨"Gamma", "CCC", "NASDAQ", 92, "fast growth", ⟨"60.1%", "45"⟩⟩

/-- C2, witness: a concrete successful screening submission whose parsed
payload is `[stockB, stockA, stockC]` (scores 58, 92, 92), instantiating
the stability conclusion at the tied score 92. -/
theorem handleScreen_results_sorted_stable_witness :
    jsFalsy (some "k") = false ∧
    isBlank "gross margin above 50%" = false ∧
    (handleScreen (some "k")
        (ScreenerState.mk "gross margin above 50%" false "" none)
        (.success "payload") (fun _ => some [stockB, stockA, stockC])).screenerResults
        = some (sortByScoreDesc [stockB, stockA, stockC]) ∧
    (sortByScoreDesc [stockB, stockA, stockC]).filter
        (fun x => decide (x.score = 92))
        = [stockB, stockA, stockC].filter (fun x => decide (x.score = 92)) :=
  ⟨by decide, by decide,
    (handleScreen_results_sorted_stable (some "k")
      (ScreenerState.mk "gross margin above 50%" false "" none) "payload"
      (fun _ => some [stockB, stockA, stockC]) [stockB, stockA, stockC]
      (by decide) (by decide) rfl).1,
    (handleScreen_results_sorted_stable (some "k")
      (ScreenerState.mk "gross margin above 50%" false "" none) "payload"
      (fun _ => some [stockB, stockA, stockC]) [stockB, stockA, stockC]
      (by decide) (by decide) rfl).2.2 92⟩

/- ### Claim C7 -/

/-- C7: the risk-rating-to-visual-tier mapping is decided by exact string
equality against the three enum values: the result is the high-risk
class exactly for "高风险", the medium-risk class exactly for
"中等风险", and the low-risk class exactly for "低风险". -/
theorem getRiskClass_exact_match (rating : String) :
    (getRiskClass rating = "risk-high" ↔ rating = "高风险") ∧
    (getRiskClass rating = "risk-medium" ↔ rating = "中等风险") ∧
    (getRiskClass rating = "risk-low" ↔ rating = "低风险") := by
  have e1 : ("高风险" : String) ≠ "中等风险" := by decide
  have e2 : ("高风险" : String) ≠ "低风险" := by decide
  have e3 : ("中等风险" : String) ≠ "高风险" := by decide
  have e4 : ("中等风险" : String) ≠ "低风险" := by decide
  have e5 : ("低风险" : String) ≠ "高风险" := by decide
  have e6 : ("低风险" : String) ≠ "中等风险" := by decide
  have c1 : ("risk-high" : String) ≠ "risk-medium" := by decide
  have c2 : ("risk-high" : String) ≠ "risk-low" := by decide
  have c3 : ("risk-medium" : String) ≠ "risk-high" := by decide
  have c4 : ("risk-medium" : String) ≠ "risk-low" := by decide
  have c5 : ("risk-low" : String) ≠ "risk-high" := by decide
  have c6 : ("risk-low" : String) ≠ "risk-medium" := by decide
  have c7 : ("" : String) ≠ "risk-high" := by decide
  have c8 : ("" : String) ≠ "risk-medium" := by decide
  have c9 : ("" : String) ≠ "risk-low" := by decide
  unfold getRiskClass
  split_ifs with h1 h2 h3 <;> subst_vars <;> simp_all

/- ### Claim C10 -/

/-- C10: on any rating string outside the three enum values the
risk-tier function is total and returns the empty class string. -/
theorem getRiskClass_unknown_empty (r : String)
    (h1 : r ≠ "高风险") (h2 : r ≠ "中等风险") (h3 : r ≠ "低风险") :
    getRiskClass r = "" := by
  simp [getRiskClass, h1, h2, h3]

/-- C10, witness at the concrete non-enum rating string "unknown". -/
theorem getRiskClass_unknown_empty_witness :
    ("unknown" : String) ≠ "高风险" ∧ ("unknown" : String) ≠ "中等风险" ∧
    ("unknown" : String) ≠ "低风险" ∧ getRiskClass "unknown" = "" :=
  ⟨by decide, by decide, by decide,
    getRiskClass_unknown_empty "unknown" (by decide) (by decide) (by decide)⟩
